import Mathlib

/-
Verification of the bytemuck trait-classification core against its
specification.  The development shallowly embeds the three source files
(`anybitpattern.rs`, `pod.rs`, `pod_in_option.rs`): the universe of Rust
types mentioned by the crate is an inductive `Ty`, each `unsafe impl`
becomes either an entry of a concrete declaration list or a clause of a
recursive classification function, `cfg`-gates become fields of `Cfg`,
and the runtime validity predicates (`is_valid_bit_pattern`) become
Lean functions on the integer reading of a bit pattern.

Parts of the crate that the claims depend on but that are outside the
three files (the `Zeroable`/`ZeroableInOption` declarations, the
`NoUninit` declarations for the non-zero integer family, the
`CheckedBitPattern` array instance and the fallible casting entry point
of `checked.rs`, and the niche decoding of `Option` over a non-zero
integer) are modelled from the specification; every such definition or
clause is marked `Modelled from the spec`.
-/

set_option maxRecDepth 8192
set_option maxHeartbeats 1600000

namespace Bytemuck

/-- Target architectures distinguished by the `cfg(target_arch = ...)`
attributes appearing in the sources. -/
inductive Arch
  | x86
  | x86_64
  | aarch64
  | wasm32
  | other
deriving DecidableEq

/-- Build configuration: the cargo features and the target architecture
that gate `unsafe impl` declarations in the sources. -/
structure Cfg where
  target_arch : Arch
  min_const_generics : Bool
  unsound_ptr_pod_impl : Bool
  wasm_simd : Bool
  aarch64_simd : Bool
deriving DecidableEq

/-- The universe of Rust types the crate classifies.  Platform vector
types are indexed by their source-level name.  `cell`, `atomic` and
`maybeUninit` appear so that the total absence of any classification for
them is expressible; the sources assert nothing about them. -/
inductive Ty
  | unit
  | u8
  | i8
  | u16
  | i16
  | u32
  | i32
  | u64
  | i64
  | usize
  | isize
  | u128
  | i128
  | f32
  | f64
  | nonZeroI8
  | nonZeroI16
  | nonZeroI32
  | nonZeroI64
  | nonZeroI128
  | nonZeroIsize
  | nonZeroU8
  | nonZeroU16
  | nonZeroU32
  | nonZeroU64
  | nonZeroU128
  | nonZeroUsize
  | option (t : Ty)
  | array (t : Ty) (n : Nat)
  | wrapping (t : Ty)
  | phantomData (t : Ty)
  | phantomPinned
  | manuallyDrop (t : Ty)
  | ptrMut (t : Ty)
  | ptrConst (t : Ty)
  | nonNull (t : Ty)
  | v128
  | aarch64 (kind : String)
  | x86 (kind : String)
  | x86_64 (kind : String)
  | cell (t : Ty)
  | atomic (t : Ty)
  | maybeUninit (t : Ty)
deriving DecidableEq

/-- The aarch64 vector types given `AnyBitPattern` in
`anybitpattern.rs` (lines 149-457), in file order. -/
def aarch64AbpNames : List String := [
  "float32x2_t", "float32x2x2_t", "float32x2x3_t", "float32x2x4_t",
  "float32x4_t", "float32x4x2_t", "float32x4x3_t", "float32x4x4_t",
  "float64x1_t", "float64x1x2_t", "float64x1x3_t", "float64x1x4_t",
  "float64x2_t", "float64x2x2_t", "float64x2x3_t", "float64x2x4_t",
  "int16x4_t", "int16x4x2_t", "int16x4x3_t", "int16x4x4_t",
  "int16x8_t", "int16x8x2_t", "int16x8x3_t", "int16x8x4_t",
  "int32x2_t", "int32x2x2_t", "int32x2x3_t", "int32x2x4_t",
  "int32x4_t", "int32x4x2_t", "int32x4x3_t", "int32x4x4_t",
  "int64x1_t", "int64x1x2_t", "int64x1x3_t", "int64x1x4_t",
  "int64x2_t", "int64x2x2_t", "int64x2x3_t", "int64x2x4_t",
  "int8x16_t", "int8x16x2_t", "int8x16x3_t", "int8x16x4_t",
  "int8x8_t", "int8x8x2_t", "int8x8x3_t", "int8x8x4_t",
  "poly16x4_t", "poly16x4x2_t", "poly16x4x3_t", "poly16x4x4_t",
  "poly16x8_t", "poly16x8x2_t", "poly16x8x3_t", "poly16x8x4_t",
  "poly64x1_t", "poly64x1x2_t", "poly64x1x3_t", "poly64x1x4_t",
  "poly64x2_t", "poly64x2x2_t", "poly64x2x3_t", "poly64x2x4_t",
  "poly8x16_t", "poly8x16x2_t", "poly8x16x3_t", "poly8x16x4_t",
  "poly8x8_t", "poly8x8x2_t", "poly8x8x3_t", "poly8x8x4_t",
  "uint16x4_t", "uint16x4x2_t", "uint16x4x3_t", "uint16x4x4_t",
  "uint16x8_t", "uint16x8x2_t", "uint16x8x3_t", "uint16x8x4_t",
  "uint32x2_t", "uint32x2x2_t", "uint32x2x3_t", "uint32x2x4_t",
  "uint32x4_t", "uint32x4x2_t", "uint32x4x3_t", "uint32x4x4_t",
  "uint64x1_t", "uint64x1x2_t", "uint64x1x3_t", "uint64x1x4_t",
  "uint64x2_t", "uint64x2x2_t", "uint64x2x3_t", "uint64x2x4_t",
  "uint8x16_t", "uint8x16x2_t", "uint8x16x3_t", "uint8x16x4_t",
  "uint8x8_t", "uint8x8x2_t", "uint8x8x3_t", "uint8x8x4_t"
]

/-- The argument list of the `aarch64!` macro invocation in `pod.rs`
(lines 278-382): each listed type receives `Pod`, `NoUninit`,
`CheckedBitPattern` and `AnyBitPattern`.  Note `float32x2_t` is absent
from this list although `anybitpattern.rs` covers it. -/
def aarch64PodNames : List String := [
  "float32x2x2_t", "float32x2x3_t", "float32x2x4_t", "float32x4_t",
  "float32x4x2_t", "float32x4x3_t", "float32x4x4_t", "float64x1_t",
  "float64x1x2_t", "float64x1x3_t", "float64x1x4_t", "float64x2_t",
  "float64x2x2_t", "float64x2x3_t", "float64x2x4_t", "int16x4_t",
  "int16x4x2_t", "int16x4x3_t", "int16x4x4_t", "int16x8_t",
  "int16x8x2_t", "int16x8x3_t", "int16x8x4_t", "int32x2_t",
  "int32x2x2_t", "int32x2x3_t", "int32x2x4_t", "int32x4_t",
  "int32x4x2_t", "int32x4x3_t", "int32x4x4_t", "int64x1_t",
  "int64x1x2_t", "int64x1x3_t", "int64x1x4_t", "int64x2_t",
  "int64x2x2_t", "int64x2x3_t", "int64x2x4_t", "int8x16_t",
  "int8x16x2_t", "int8x16x3_t", "int8x16x4_t", "int8x8_t",
  "int8x8x2_t", "int8x8x3_t", "int8x8x4_t", "poly16x4_t",
  "poly16x4x2_t", "poly16x4x3_t", "poly16x4x4_t", "poly16x8_t",
  "poly16x8x2_t", "poly16x8x3_t", "poly16x8x4_t", "poly64x1_t",
  "poly64x1x2_t", "poly64x1x3_t", "poly64x1x4_t", "poly64x2_t",
  "poly64x2x2_t", "poly64x2x3_t", "poly64x2x4_t", "poly8x16_t",
  "poly8x16x2_t", "poly8x16x3_t", "poly8x16x4_t", "poly8x8_t",
  "poly8x8x2_t", "poly8x8x3_t", "poly8x8x4_t", "uint16x4_t",
  "uint16x4x2_t", "uint16x4x3_t", "uint16x4x4_t", "uint16x8_t",
  "uint16x8x2_t", "uint16x8x3_t", "uint16x8x4_t", "uint32x2_t",
  "uint32x2x2_t", "uint32x2x3_t", "uint32x2x4_t", "uint32x4_t",
  "uint32x4x2_t", "uint32x4x3_t", "uint32x4x4_t", "uint64x1_t",
  "uint64x1x2_t", "uint64x1x3_t", "uint64x1x4_t", "uint64x2_t",
  "uint64x2x2_t", "uint64x2x3_t", "uint64x2x4_t", "uint8x16_t",
  "uint8x16x2_t", "uint8x16x3_t", "uint8x16x4_t", "uint8x8_t",
  "uint8x8x2_t", "uint8x8x3_t", "uint8x8x4_t"
]

/-- The x86 vector types given `AnyBitPattern` in `anybitpattern.rs`
(lines 459-475). -/
def x86AbpNames : List String :=
  ["__m128i", "__m128", "__m128d", "__m256i", "__m256", "__m256d"]

/-- The x86_64 vector types given `AnyBitPattern` in `anybitpattern.rs`
(lines 477-493). -/
def x86_64AbpNames : List String :=
  ["__m128i", "__m128", "__m128d", "__m256i", "__m256", "__m256d"]

/-- The argument list of the `x84!` macro invocation in `pod.rs`
(lines 404-407), transcribed verbatim: it lists each of the six x86
vector types twice, so each receives every one of `Pod`, `NoUninit`,
`CheckedBitPattern` and `AnyBitPattern` twice. -/
def x84Args : List String :=
  ["__m128i", "__m128", "__m128d", "__m256i", "__m256", "__m256d",
   "__m128i", "__m128", "__m128d", "__m256i", "__m256", "__m256d"]

/-- The array lengths covered by the `impl_unsafe_marker_for_array!`
invocation in `anybitpattern.rs` (lines 65-110), used when the
`min_const_generics` feature is off. -/
def legacyArraySizes : List Nat :=
  [0, 1, 2, 3, 4, 5, 6, 7, 8, 9, 10, 11, 12, 13, 14, 15, 16,
   17, 18, 19, 20, 21, 22, 23, 24, 25, 26, 27, 28, 29, 30, 31, 32,
   48, 64, 96, 128, 256, 512, 1024, 2048, 4096]

/-- The `PodInOption` classification (`pod_in_option.rs`): declared for
eleven concrete non-zero integer types (lines 31-121; note there is no
declaration for `NonZeroI8`), and for `NonNull<T>` under the
`unsound_ptr_pod_impl` feature (`pod.rs` line 210). -/
def podInOption (c : Cfg) : Ty → Bool
  | .nonZeroI16 | .nonZeroI32 | .nonZeroI64 | .nonZeroI128 | .nonZeroIsize => true
  | .nonZeroU8 | .nonZeroU16 | .nonZeroU32 | .nonZeroU64 | .nonZeroU128
  | .nonZeroUsize => true
  | .nonNull _ => c.unsound_ptr_pod_impl
  | _ => false

/-- Modelled from the spec: the `ZeroableInOption` classification
(`zeroable.rs` is not under src; only the supertrait bound of
`PodInOption` in `pod_in_option.rs` line 20 mentions it).  Per spec
section 3, the non-zero integer family of every width has zero as its
reserved out-of-domain sentinel, so its optional is zero-valid; the
`NonNull` escape hatch follows the `unsound_ptr_pod_impl` gate of
`pod.rs`. -/
def zeroableInOption (c : Cfg) : Ty → Bool
  | .nonZeroI8 | .nonZeroI16 | .nonZeroI32 | .nonZeroI64 | .nonZeroI128
  | .nonZeroIsize => true
  | .nonZeroU8 | .nonZeroU16 | .nonZeroU32 | .nonZeroU64 | .nonZeroU128
  | .nonZeroUsize => true
  | .nonNull _ => c.unsound_ptr_pod_impl
  | _ => false

/-- Modelled from the spec: the `ZeroBitValidity` (`Zeroable`)
classification; `zeroable.rs` is not under src.  Spec section 4.1:
valid for empty types and all primitive numeric types, closed under
aggregates whose every field satisfies it (arrays, transparent
wrappers), not valid for pointer fields unless the deliberately unsafe
escape hatch is enabled, and never valid for the non-zero integer
family (zero is exactly their excluded sentinel, spec section 3).  The
`Zeroable for NonNull<T>` declaration under `unsound_ptr_pod_impl` is
from src (`pod.rs` line 216).  The array clause is gated like every
array declaration present in src. -/
def zeroable (c : Cfg) : Ty → Bool
  | .unit => true
  | .u8 | .i8 | .u16 | .i16 | .u32 | .i32 | .u64 | .i64 | .usize | .isize
  | .u128 | .i128 | .f32 | .f64 => true
  | .nonZeroI8 | .nonZeroI16 | .nonZeroI32 | .nonZeroI64 | .nonZeroI128
  | .nonZeroIsize => false
  | .nonZeroU8 | .nonZeroU16 | .nonZeroU32 | .nonZeroU64 | .nonZeroU128
  | .nonZeroUsize => false
  | .option t => zeroableInOption c t
  | .array t _ => c.min_const_generics && zeroable c t
  | .wrapping t => zeroable c t
  | .phantomData _ => true
  | .phantomPinned => true
  | .manuallyDrop t => zeroable c t
  | .ptrMut _ | .ptrConst _ => c.unsound_ptr_pod_impl
  | .nonNull _ => c.unsound_ptr_pod_impl
  | .v128 => (c.target_arch == .wasm32) && c.wasm_simd
  | .aarch64 _ => (c.target_arch == .aarch64) && c.aarch64_simd
  | .x86 _ => c.target_arch == .x86
  | .x86_64 _ => c.target_arch == .x86_64
  | _ => false

/-- The `AnyBitPattern` classification, from `anybitpattern.rs` (the
per-type declarations and the generic array, `Wrapping`, pointer,
`PhantomData`, `PhantomPinned` and `ManuallyDrop` instances) together
with `AnyBitPattern for Option<T: PodInOption>` from
`pod_in_option.rs` line 7 and `AnyBitPattern for NonNull<T>` under the
unsound flag from `pod.rs` line 213. -/
def anyBitPattern (c : Cfg) : Ty → Bool
  | .unit => true
  | .u8 | .i8 | .u16 | .i16 | .u32 | .i32 | .u64 | .i64 | .usize | .isize
  | .u128 | .i128 | .f32 | .f64 => true
  | .array t n =>
    (if c.min_const_generics then true else decide (n ∈ legacyArraySizes))
      && anyBitPattern c t
  | .wrapping t => anyBitPattern c t
  | .ptrMut _ | .ptrConst _ => c.unsound_ptr_pod_impl
  | .nonNull _ => c.unsound_ptr_pod_impl
  | .phantomData t => anyBitPattern c t
  | .phantomPinned => true
  | .manuallyDrop t => anyBitPattern c t
  | .option t => podInOption c t
  | .v128 => (c.target_arch == .wasm32) && c.wasm_simd
  | .aarch64 k =>
    ((c.target_arch == .aarch64) && c.aarch64_simd) && decide (k ∈ aarch64AbpNames)
  | .x86 k => (c.target_arch == .x86) && decide (k ∈ x86AbpNames)
  | .x86_64 k => (c.target_arch == .x86_64) && decide (k ∈ x86_64AbpNames)
  | _ => false

/-- The `Pod` classification, from `pod.rs` (per-primitive
declarations, `Pod for Option<T: PodInOption>` from `pod_in_option.rs`
line 4, generic `Wrapping`/`PhantomData`/`ManuallyDrop`/array
instances, pointers under the unsound flag, and the platform vector
declarations; the `x84!` invocation covers only `target_arch = x86`). -/
def pod (c : Cfg) : Ty → Bool
  | .unit => true
  | .u8 | .i8 | .u16 | .i16 | .u32 | .i32 | .u64 | .i64 | .usize | .isize
  | .u128 | .i128 | .f32 | .f64 => true
  | .option t => podInOption c t
  | .wrapping t => pod c t
  | .ptrMut _ | .ptrConst _ => c.unsound_ptr_pod_impl
  | .phantomData t => pod c t
  | .phantomPinned => true
  | .manuallyDrop t => pod c t
  | .array t _ => c.min_const_generics && pod c t
  | .v128 => (c.target_arch == .wasm32) && c.wasm_simd
  | .aarch64 k =>
    ((c.target_arch == .aarch64) && c.aarch64_simd) && decide (k ∈ aarch64PodNames)
  | .x86 k => (c.target_arch == .x86) && decide (k ∈ x84Args)
  | _ => false

/-- The `NoUninit` classification, from `pod.rs` and
`pod_in_option.rs` line 9 (`NoUninit for Option<T: NoUninit>`).  The
clause for the non-zero integer family is modelled from the spec: the
`NoUninit` declarations for those types live outside src, and the
supertrait bound of `PodInOption` (`pod_in_option.rs` line 20) together
with spec section 3 requires them. -/
def noUninit (c : Cfg) : Ty → Bool
  | .option t => noUninit c t
  | .unit => true
  | .u8 | .i8 | .u16 | .i16 | .u32 | .i32 | .u64 | .i64 | .usize | .isize
  | .u128 | .i128 | .f32 | .f64 => true
  | .nonZeroI8 | .nonZeroI16 | .nonZeroI32 | .nonZeroI64 | .nonZeroI128
  | .nonZeroIsize => true
  | .nonZeroU8 | .nonZeroU16 | .nonZeroU32 | .nonZeroU64 | .nonZeroU128
  | .nonZeroUsize => true
  | .wrapping t => noUninit c t
  | .ptrMut _ | .ptrConst _ => c.unsound_ptr_pod_impl
  | .nonNull _ => c.unsound_ptr_pod_impl
  | .phantomData t => noUninit c t
  | .phantomPinned => true
  | .manuallyDrop t => noUninit c t
  | .array t _ => c.min_const_generics && noUninit c t
  | .v128 => (c.target_arch == .wasm32) && c.wasm_simd
  | .aarch64 k =>
    ((c.target_arch == .aarch64) && c.aarch64_simd) && decide (k ∈ aarch64PodNames)
  | .x86 k => (c.target_arch == .x86) && decide (k ∈ x84Args)
  | _ => false

/-- The `CheckedBitPattern` classification.  From src: the unit type
and the thirteen primitives `i8, u16, ..., f64` declared in `pod.rs`
(there is no `CheckedBitPattern` declaration for `u8` anywhere in the
sources), the eleven non-zero integer types of `pod_in_option.rs`
(there is none for `NonZeroI8`), the generic
`Wrapping`/`PhantomData`/`ManuallyDrop` instances bounded by `T: Pod`,
pointers and `NonNull` under the unsound flag, and the platform vector
declarations.  The `Option` clause is modelled from the spec (section
4.6: the optional of a sentinel type participates with an always-true
predicate), and the array clause is modelled from the spec (section 8
aggregation law; the array instance of `checked.rs` is not under src),
gated like every array declaration present in src. -/
def checkedBitPattern (c : Cfg) : Ty → Bool
  | .unit => true
  | .i8 | .u16 | .i16 | .u32 | .i32 | .u64 | .i64 | .usize | .isize
  | .u128 | .i128 | .f32 | .f64 => true
  | .nonZeroI16 | .nonZeroI32 | .nonZeroI64 | .nonZeroI128 | .nonZeroIsize => true
  | .nonZeroU8 | .nonZeroU16 | .nonZeroU32 | .nonZeroU64 | .nonZeroU128
  | .nonZeroUsize => true
  | .wrapping t => pod c t
  | .phantomData t => pod c t
  | .phantomPinned => true
  | .manuallyDrop t => pod c t
  | .ptrMut _ | .ptrConst _ => c.unsound_ptr_pod_impl
  | .nonNull _ => c.unsound_ptr_pod_impl
  | .aarch64 k =>
    ((c.target_arch == .aarch64) && c.aarch64_simd) && decide (k ∈ aarch64PodNames)
  | .x86 k => (c.target_arch == .x86) && decide (k ∈ x84Args)
  | .option t => podInOption c t
  | .array t _ => c.min_const_generics && checkedBitPattern c t
  | _ => false

/-- The representation type (`Bits`) assigned by each
`CheckedBitPattern` declaration: `Self` for the unconstrained types,
the plain integer of identical width for the non-zero integer family.
The `Option` clause (the optional's `Bits` equals the payload's
`Bits`) and the array clause (`[T::Bits; N]`) are modelled from the
spec (sections 4.6 and 8). -/
def bitsOf (c : Cfg) : Ty → Option Ty
  | .unit => some .unit
  | .i8 => some .i8
  | .u16 => some .u16
  | .i16 => some .i16
  | .u32 => some .u32
  | .i32 => some .i32
  | .u64 => some .u64
  | .i64 => some .i64
  | .usize => some .usize
  | .isize => some .isize
  | .u128 => some .u128
  | .i128 => some .i128
  | .f32 => some .f32
  | .f64 => some .f64
  | .nonZeroI16 => some .i16
  | .nonZeroI32 => some .i32
  | .nonZeroI64 => some .i64
  | .nonZeroI128 => some .i128
  | .nonZeroIsize => some .isize
  | .nonZeroU8 => some .u8
  | .nonZeroU16 => some .u16
  | .nonZeroU32 => some .u32
  | .nonZeroU64 => some .u64
  | .nonZeroU128 => some .u128
  | .nonZeroUsize => some .usize
  | .wrapping t => if pod c t then some (.wrapping t) else none
  | .phantomData t => if pod c t then some (.phantomData t) else none
  | .phantomPinned => some .phantomPinned
  | .manuallyDrop t => if pod c t then some (.manuallyDrop t) else none
  | .ptrMut t => if c.unsound_ptr_pod_impl then some (.ptrMut t) else none
  | .ptrConst t => if c.unsound_ptr_pod_impl then some (.ptrConst t) else none
  | .nonNull t => if c.unsound_ptr_pod_impl then some (.nonNull t) else none
  | .aarch64 k =>
    if ((c.target_arch == .aarch64) && c.aarch64_simd) && decide (k ∈ aarch64PodNames)
    then some (.aarch64 k) else none
  | .x86 k =>
    if (c.target_arch == .x86) && decide (k ∈ x84Args) then some (.x86 k) else none
  | .option t => if podInOption c t then bitsOf c t else none
  | .array t n =>
    if c.min_const_generics then (bitsOf c t).map (fun b => .array b n) else none
  | _ => none

def NonZeroI16.is_valid_bit_pattern (bits : Int) : Bool := bits != 0

def NonZeroI32.is_valid_bit_pattern (bits : Int) : Bool := bits != 0

def NonZeroI64.is_valid_bit_pattern (bits : Int) : Bool := bits != 0

def NonZeroI128.is_valid_bit_pattern (bits : Int) : Bool := bits != 0

def NonZeroIsize.is_valid_bit_pattern (bits : Int) : Bool := bits != 0

def NonZeroU8.is_valid_bit_pattern (bits : Int) : Bool := bits != 0

def NonZeroU16.is_valid_bit_pattern (bits : Int) : Bool := bits != 0

def NonZeroU32.is_valid_bit_pattern (bits : Int) : Bool := bits != 0

def NonZeroU64.is_valid_bit_pattern (bits : Int) : Bool := bits != 0

def NonZeroU128.is_valid_bit_pattern (bits : Int) : Bool := bits != 0

def NonZeroUsize.is_valid_bit_pattern (bits : Int) : Bool := bits != 0

/-- The validity predicate attached to each `CheckedBitPattern`
classification, evaluated on the integer reading of a candidate `Bits`
value.  The eleven non-trivial clauses are the `is_valid_bit_pattern`
bodies of `pod_in_option.rs`; every declaration in src that omits the
method uses the trait's default body, which is modelled from the spec
(section 4.4: `AnyBitValidity` is the degenerate case where the
predicate is always true). -/
def is_valid_bit_pattern_of : Ty → Int → Bool
  | .nonZeroI16, bits => NonZeroI16.is_valid_bit_pattern bits
  | .nonZeroI32, bits => NonZeroI32.is_valid_bit_pattern bits
  | .nonZeroI64, bits => NonZeroI64.is_valid_bit_pattern bits
  | .nonZeroI128, bits => NonZeroI128.is_valid_bit_pattern bits
  | .nonZeroIsize, bits => NonZeroIsize.is_valid_bit_pattern bits
  | .nonZeroU8, bits => NonZeroU8.is_valid_bit_pattern bits
  | .nonZeroU16, bits => NonZeroU16.is_valid_bit_pattern bits
  | .nonZeroU32, bits => NonZeroU32.is_valid_bit_pattern bits
  | .nonZeroU64, bits => NonZeroU64.is_valid_bit_pattern bits
  | .nonZeroU128, bits => NonZeroU128.is_valid_bit_pattern bits
  | .nonZeroUsize, bits => NonZeroUsize.is_valid_bit_pattern bits
  | _, _ => true

/-- Modelled from the spec: the array validity predicate is the
conjunction of the element predicate over every element (spec section
8 aggregation law; the `CheckedBitPattern` array instance of
`checked.rs` is not under src). -/
def array_is_valid_bit_pattern (p : Int → Bool) (elems : List Int) : Bool :=
  elems.all p

/-- Two's-complement reading of a `w`-bit pattern (given as its
unsigned value) as the typed integer value of a signed or unsigned
integer of width `w`. -/
def decodeInt (w : Nat) (signed : Bool) (pat : Nat) : Int :=
  if signed && decide (2 ^ (w - 1) ≤ pat) then (pat : Int) - 2 ^ w
  else (pat : Int)

/-- Bit width and signedness of the plain integer types; `pw` is the
pointer width of the target in bits. -/
def intShape (pw : Nat) : Ty → Option (Nat × Bool)
  | .u8 => some (8, false)
  | .i8 => some (8, true)
  | .u16 => some (16, false)
  | .i16 => some (16, true)
  | .u32 => some (32, false)
  | .i32 => some (32, true)
  | .u64 => some (64, false)
  | .i64 => some (64, true)
  | .u128 => some (128, false)
  | .i128 => some (128, true)
  | .usize => some (pw, false)
  | .isize => some (pw, true)
  | _ => none

/-- The types whose `Option` enjoys the niche (sentinel) layout
guarantee used by `pod_in_option.rs`: the non-zero integer family and
`NonNull`. -/
def nicheTy : Ty → Bool
  | .nonZeroI8 | .nonZeroI16 | .nonZeroI32 | .nonZeroI64 | .nonZeroI128
  | .nonZeroIsize => true
  | .nonZeroU8 | .nonZeroU16 | .nonZeroU32 | .nonZeroU64 | .nonZeroU128
  | .nonZeroUsize => true
  | .nonNull _ => true
  | _ => false

/-- Byte sizes of the modelled types, per the Rust layout rules (`ps`
is the pointer size of the target in bytes; the non-zero integer types
are `repr(transparent)` over the plain integer of the same width; the
optional of a niche type has the size of its payload).  The platform
vector types' sizes are not modelled. -/
def sizeOf (ps : Nat) : Ty → Option Nat
  | .unit => some 0
  | .u8 | .i8 => some 1
  | .u16 | .i16 => some 2
  | .u32 | .i32 | .f32 => some 4
  | .u64 | .i64 | .f64 => some 8
  | .u128 | .i128 => some 16
  | .usize | .isize => some ps
  | .nonZeroI8 | .nonZeroU8 => some 1
  | .nonZeroI16 | .nonZeroU16 => some 2
  | .nonZeroI32 | .nonZeroU32 => some 4
  | .nonZeroI64 | .nonZeroU64 => some 8
  | .nonZeroI128 | .nonZeroU128 => some 16
  | .nonZeroIsize | .nonZeroUsize => some ps
  | .wrapping t => sizeOf ps t
  | .manuallyDrop t => sizeOf ps t
  | .phantomData _ => some 0
  | .phantomPinned => some 0
  | .array t n => (sizeOf ps t).map (fun s => n * s)
  | .option t => if nicheTy t then sizeOf ps t else none
  | .ptrMut _ | .ptrConst _ | .nonNull _ => some ps
  | .v128 => some 16
  | _ => none

/-- Modelled from the spec: the fallible runtime cast for
`CheckedBitValidity` types (spec sections 4.4 and 6; the entry point
itself, `checked.rs`, is not under src): interpret the candidate
pattern as the declared `Bits` type, evaluate the validity predicate
on it, and either yield the value or reject explicitly.  The
predicates are the src-transcribed ones. -/
def checkedCast (pw : Nat) (c : Cfg) (t : Ty) (pat : Nat) : Option Int :=
  match bitsOf c t with
  | none => none
  | some b =>
    match intShape pw b with
    | none => none
    | some (w, s) =>
      if is_valid_bit_pattern_of t (decodeInt w s pat) then
        some (decodeInt w s pat)
      else none

/-- Modelled from the spec (section 4.6): decoding of the optional
over a non-zero integer of shape `(w, signed)`: the reserved zero
pattern encodes absence, any other pattern encodes the present value. -/
def optionNonZeroDecode (w : Nat) (signed : Bool) (pat : Nat) : Option Int :=
  if pat = 0 then none else some (decodeInt w signed pat)

/-- The marker classifications a declaration can assert. -/
inductive Classification
  | zeroable
  | anyBitPattern
  | noUninit
  | checkedBitPattern
  | pod
  | podInOption
deriving DecidableEq

/-- The `cfg` gate attached to a declaration. -/
inductive Guard
  | always
  | minConstGenerics
  | unsoundPtr
  | wasmSimd
  | aarch64Simd
  | archX86
  | archX86_64
deriving DecidableEq

/-- One concrete (non-generic) `unsafe impl` declaration. -/
structure Decl where
  cls : Classification
  ty : Ty
  guard : Guard
deriving DecidableEq

/-- The primitive types receiving `AnyBitPattern` in
`anybitpattern.rs` lines 115-129, in file order. -/
def primTys : List Ty :=
  [.unit, .u8, .i8, .u16, .i16, .u32, .i32, .u64, .i64, .usize, .isize,
   .u128, .i128, .f32, .f64]

/-- The concrete declarations of `anybitpattern.rs`, in file order:
`v128` (line 112), the primitives (115-129), `v128` a second time
(line 147), the aarch64 vectors, the x86 vectors, the x86_64
vectors. -/
def anybitpatternDecls : List Decl :=
  [⟨.anyBitPattern, .v128, .wasmSimd⟩]
  ++ primTys.map (fun t => ⟨.anyBitPattern, t, .always⟩)
  ++ [⟨.anyBitPattern, .v128, .wasmSimd⟩]
  ++ aarch64AbpNames.map (fun k => ⟨.anyBitPattern, .aarch64 k, .aarch64Simd⟩)
  ++ x86AbpNames.map (fun k => ⟨.anyBitPattern, .x86 k, .archX86⟩)
  ++ x86_64AbpNames.map (fun k => ⟨.anyBitPattern, .x86_64 k, .archX86_64⟩)

/-- The thirteen primitives of `pod.rs` that each receive
`CheckedBitPattern`, `Pod` and `NoUninit` (lines 104-180), in file
order; `u8` is not among them (it receives only `Pod` and `NoUninit`,
lines 101-102). -/
def podPrimTrios : List Ty :=
  [.i8, .u16, .i16, .u32, .i32, .u64, .i64, .usize, .isize, .u128, .i128,
   .f32, .f64]

/-- The concrete declarations of `pod.rs`, in file order (generic
instances such as `Wrapping`, `Option`, arrays and the pointer escape
hatch are modelled in the classification functions above). -/
def podDecls : List Decl :=
  [⟨.pod, .unit, .always⟩, ⟨.checkedBitPattern, .unit, .always⟩,
   ⟨.noUninit, .unit, .always⟩,
   ⟨.pod, .u8, .always⟩, ⟨.noUninit, .u8, .always⟩]
  ++ podPrimTrios.flatMap (fun t =>
      [⟨.checkedBitPattern, t, .always⟩, ⟨.pod, t, .always⟩,
       ⟨.noUninit, t, .always⟩])
  ++ [⟨.pod, .phantomPinned, .always⟩, ⟨.noUninit, .phantomPinned, .always⟩,
      ⟨.checkedBitPattern, .phantomPinned, .always⟩]
  ++ [⟨.pod, .v128, .wasmSimd⟩, ⟨.noUninit, .v128, .wasmSimd⟩]
  ++ aarch64PodNames.flatMap (fun k =>
      [⟨.pod, .aarch64 k, .aarch64Simd⟩, ⟨.noUninit, .aarch64 k, .aarch64Simd⟩,
       ⟨.checkedBitPattern, .aarch64 k, .aarch64Simd⟩,
       ⟨.anyBitPattern, .aarch64 k, .aarch64Simd⟩])
  ++ x84Args.flatMap (fun k =>
      [⟨.pod, .x86 k, .archX86⟩, ⟨.noUninit, .x86 k, .archX86⟩,
       ⟨.checkedBitPattern, .x86 k, .archX86⟩,
       ⟨.anyBitPattern, .x86 k, .archX86⟩])

/-- The non-zero integer types of `pod_in_option.rs`, in file order
(lines 24-121); `NonZeroI8` is absent. -/
def nonZeroTys : List Ty :=
  [.nonZeroI16, .nonZeroI32, .nonZeroI64, .nonZeroI128, .nonZeroIsize,
   .nonZeroU8, .nonZeroU16, .nonZeroU32, .nonZeroU64, .nonZeroU128,
   .nonZeroUsize]

/-- The concrete declarations of `pod_in_option.rs`, in file order. -/
def podInOptionDecls : List Decl :=
  nonZeroTys.flatMap (fun t =>
    [⟨.checkedBitPattern, t, .always⟩, ⟨.podInOption, t, .always⟩])

/-- All concrete declarations of the three source files, in file
order. -/
def declarations : List Decl :=
  anybitpatternDecls ++ podDecls ++ podInOptionDecls

/-- A concrete configuration used by the witnesses: x86_64 target,
`min_const_generics` on, the unsound pointer escape hatch off, no
SIMD features. -/
def cfgDefault : Cfg := Cfg.mk Arch.x86_64 true false false false

/-- `cfgDefault` with the `unsound_ptr_pod_impl` escape hatch
enabled. -/
def cfgUnsoundPtr : Cfg := Cfg.mk Arch.x86_64 true true false false

/-- Every aarch64 vector type covered by the `aarch64!` macro of
`pod.rs` is also covered by the `AnyBitPattern` declarations of
`anybitpattern.rs`. -/
theorem aarch64_pod_mem_abp : ∀ k, k ∈ aarch64PodNames → k ∈ aarch64AbpNames := by
  decide

/-- Every x86 vector type covered by the `x84!` macro of `pod.rs` is
also covered by the `AnyBitPattern` declarations of
`anybitpattern.rs`. -/
theorem x84_mem_abp : ∀ k, k ∈ x84Args → k ∈ x86AbpNames := by
  decide

/-- Every type carrying the `Pod` classification also carries
`AnyBitPattern` (the supertrait bound of `Pod`, `pod.rs` line 38). -/
theorem pod_imp_anyBitPattern (c : Cfg) :
    ∀ t : Ty, pod c t = true → anyBitPattern c t = true := by
  intro t
  induction t with
  | unit => intro _; rfl
  | u8 => intro _; rfl
  | i8 => intro _; rfl
  | u16 => intro _; rfl
  | i16 => intro _; rfl
  | u32 => intro _; rfl
  | i32 => intro _; rfl
  | u64 => intro _; rfl
  | i64 => intro _; rfl
  | usize => intro _; rfl
  | isize => intro _; rfl
  | u128 => intro _; rfl
  | i128 => intro _; rfl
  | f32 => intro _; rfl
  | f64 => intro _; rfl
  | nonZeroI8 => intro h; simp [pod] at h
  | nonZeroI16 => intro h; simp [pod] at h
  | nonZeroI32 => intro h; simp [pod] at h
  | nonZeroI64 => intro h; simp [pod] at h
  | nonZeroI128 => intro h; simp [pod] at h
  | nonZeroIsize => intro h; simp [pod] at h
  | nonZeroU8 => intro h; simp [pod] at h
  | nonZeroU16 => intro h; simp [pod] at h
  | nonZeroU32 => intro h; simp [pod] at h
  | nonZeroU64 => intro h; simp [pod] at h
  | nonZeroU128 => intro h; simp [pod] at h
  | nonZeroUsize => intro h; simp [pod] at h
  | option te ih => intro h; exact h
  | array te n ih =>
    intro h
    simp only [pod, Bool.and_eq_true] at h
    simp [anyBitPattern, h.1, ih h.2]
  | wrapping te ih => intro h; exact ih h
  | phantomData te ih => intro h; exact ih h
  | phantomPinned => intro _; rfl
  | manuallyDrop te ih => intro h; exact ih h
  | ptrMut te ih => intro h; exact h
  | ptrConst te ih => intro h; exact h
  | nonNull te ih => intro h; simp [pod] at h
  | v128 => intro h; exact h
  | aarch64 k =>
    intro h
    simp only [pod, Bool.and_eq_true, decide_eq_true_eq] at h
    simp [anyBitPattern, h.1, aarch64_pod_mem_abp k h.2]
  | x86 k =>
    intro h
    simp only [pod, Bool.and_eq_true, decide_eq_true_eq] at h
    simp [anyBitPattern, h.1, x84_mem_abp k h.2]
  | x86_64 k => intro h; simp [pod] at h
  | cell te ih => intro h; simp [pod] at h
  | atomic te ih => intro h; simp [pod] at h
  | maybeUninit te ih => intro h; simp [pod] at h

/-- Every type carrying `PodInOption` also carries
`CheckedBitPattern` (the supertrait bound of `PodInOption`,
`pod_in_option.rs` line 20). -/
theorem podInOption_imp_checked (c : Cfg) (t : Ty)
    (h : podInOption c t = true) : checkedBitPattern c t = true := by
  cases t <;> simp_all [podInOption, checkedBitPattern]

/-- Every type carrying `PodInOption` has the niche layout guarantee
for its optional. -/
theorem podInOption_imp_niche (c : Cfg) (t : Ty)
    (h : podInOption c t = true) : nicheTy t = true := by
  cases t <;> simp_all [podInOption, nicheTy]

/-- Every type carrying `PodInOption` also carries `NoUninit` (the
supertrait bound of `PodInOption`, `pod_in_option.rs` line 20). -/
theorem podInOption_imp_noUninit (c : Cfg) (t : Ty)
    (h : podInOption c t = true) : noUninit c t = true := by
  cases t <;> simp_all [podInOption, noUninit]

/-- C7: for every `CheckedBitPattern` classification in the system, the
representation type `Bits` has a size identical to the target type's
size, and `Bits` itself carries the `AnyBitPattern` classification. -/
theorem checked_bits_same_size_and_any_pattern (ps : Nat) (c : Cfg) :
    ∀ t b : Ty, checkedBitPattern c t = true → bitsOf c t = some b →
      sizeOf ps b = sizeOf ps t ∧ anyBitPattern c b = true := by
  intro t
  induction t with
  | unit => intro b _ hb; simp only [bitsOf, Option.some.injEq] at hb; subst hb; exact ⟨rfl, rfl⟩
  | u8 => intro b h _; simp [checkedBitPattern] at h
  | i8 => intro b _ hb; simp only [bitsOf, Option.some.injEq] at hb; subst hb; exact ⟨rfl, rfl⟩
  | u16 => intro b _ hb; simp only [bitsOf, Option.some.injEq] at hb; subst hb; exact ⟨rfl, rfl⟩
  | i16 => intro b _ hb; simp only [bitsOf, Option.some.injEq] at hb; subst hb; exact ⟨rfl, rfl⟩
  | u32 => intro b _ hb; simp only [bitsOf, Option.some.injEq] at hb; subst hb; exact ⟨rfl, rfl⟩
  | i32 => intro b _ hb; simp only [bitsOf, Option.some.injEq] at hb; subst hb; exact ⟨rfl, rfl⟩
  | u64 => intro b _ hb; simp only [bitsOf, Option.some.injEq] at hb; subst hb; exact ⟨rfl, rfl⟩
  | i64 => intro b _ hb; simp only [bitsOf, Option.some.injEq] at hb; subst hb; exact ⟨rfl, rfl⟩
  | usize => intro b _ hb; simp only [bitsOf, Option.some.injEq] at hb; subst hb; exact ⟨rfl, rfl⟩
  | isize => intro b _ hb; simp only [bitsOf, Option.some.injEq] at hb; subst hb; exact ⟨rfl, rfl⟩
  | u128 => intro b _ hb; simp only [bitsOf, Option.some.injEq] at hb; subst hb; exact ⟨rfl, rfl⟩
  | i128 => intro b _ hb; simp only [bitsOf, Option.some.injEq] at hb; subst hb; exact ⟨rfl, rfl⟩
  | f32 => intro b _ hb; simp only [bitsOf, Option.some.injEq] at hb; subst hb; exact ⟨rfl, rfl⟩
  | f64 => intro b _ hb; simp only [bitsOf, Option.some.injEq] at hb; subst hb; exact ⟨rfl, rfl⟩
  | nonZeroI8 => intro b h _; simp [checkedBitPattern] at h
  | nonZeroI16 =>
    intro b _ hb; simp only [bitsOf, Option.some.injEq] at hb; subst hb; exact ⟨rfl, rfl⟩
  | nonZeroI32 =>
    intro b _ hb; simp only [bitsOf, Option.some.injEq] at hb; subst hb; exact ⟨rfl, rfl⟩
  | nonZeroI64 =>
    intro b _ hb; simp only [bitsOf, Option.some.injEq] at hb; subst hb; exact ⟨rfl, rfl⟩
  | nonZeroI128 =>
    intro b _ hb; simp only [bitsOf, Option.some.injEq] at hb; subst hb; exact ⟨rfl, rfl⟩
  | nonZeroIsize =>
    intro b _ hb; simp only [bitsOf, Option.some.injEq] at hb; subst hb; exact ⟨rfl, rfl⟩
  | nonZeroU8 =>
    intro b _ hb; simp only [bitsOf, Option.some.injEq] at hb; subst hb; exact ⟨rfl, rfl⟩
  | nonZeroU16 =>
    intro b _ hb; simp only [bitsOf, Option.some.injEq] at hb; subst hb; exact ⟨rfl, rfl⟩
  | nonZeroU32 =>
    intro b _ hb; simp only [bitsOf, Option.some.injEq] at hb; subst hb; exact ⟨rfl, rfl⟩
  | nonZeroU64 =>
    intro b _ hb; simp only [bitsOf, Option.some.injEq] at hb; subst hb; exact ⟨rfl, rfl⟩
  | nonZeroU128 =>
    intro b _ hb; simp only [bitsOf, Option.some.injEq] at hb; subst hb; exact ⟨rfl, rfl⟩
  | nonZeroUsize =>
    intro b _ hb; simp only [bitsOf, Option.some.injEq] at hb; subst hb; exact ⟨rfl, rfl⟩
  | option te ih =>
    intro b h hb
    have hp : podInOption c te = true := h
    simp only [bitsOf, hp, if_true] at hb
    obtain ⟨hsz, habp⟩ := ih b (podInOption_imp_checked c te hp) hb
    refine ⟨?_, habp⟩
    have hn : nicheTy te = true := podInOption_imp_niche c te hp
    rw [hsz]
    simp [sizeOf, hn]
  | array te n ih =>
    intro b h hb
    simp only [checkedBitPattern, Bool.and_eq_true] at h
    simp only [bitsOf, h.1, if_true, Option.map_eq_some'] at hb
    obtain ⟨bt, hbt, rfl⟩ := hb
    obtain ⟨hsz, habp⟩ := ih bt h.2 hbt
    constructor
    · simp [sizeOf, hsz]
    · simp [anyBitPattern, h.1, habp]
  | wrapping te ih =>
    intro b h hb
    have hp : pod c te = true := h
    simp only [bitsOf, hp, if_true, Option.some.injEq] at hb
    subst hb
    exact ⟨rfl, pod_imp_anyBitPattern c te hp⟩
  | phantomData te ih =>
    intro b h hb
    have hp : pod c te = true := h
    simp only [bitsOf, hp, if_true, Option.some.injEq] at hb
    subst hb
    exact ⟨rfl, pod_imp_anyBitPattern c te hp⟩
  | phantomPinned =>
    intro b _ hb; simp only [bitsOf, Option.some.injEq] at hb; subst hb; exact ⟨rfl, rfl⟩
  | manuallyDrop te ih =>
    intro b h hb
    have hp : pod c te = true := h
    simp only [bitsOf, hp, if_true, Option.some.injEq] at hb
    subst hb
    exact ⟨rfl, pod_imp_anyBitPattern c te hp⟩
  | ptrMut te ih =>
    intro b h hb
    have hp : c.unsound_ptr_pod_impl = true := h
    simp only [bitsOf, hp, if_true, Option.some.injEq] at hb
    subst hb
    exact ⟨rfl, by simp [anyBitPattern, hp]⟩
  | ptrConst te ih =>
    intro b h hb
    have hp : c.unsound_ptr_pod_impl = true := h
    simp only [bitsOf, hp, if_true, Option.some.injEq] at hb
    subst hb
    exact ⟨rfl, by simp [anyBitPattern, hp]⟩
  | nonNull te ih =>
    intro b h hb
    have hp : c.unsound_ptr_pod_impl = true := h
    simp only [bitsOf, hp, if_true, Option.some.injEq] at hb
    subst hb
    exact ⟨rfl, by simp [anyBitPattern, hp]⟩
  | v128 => intro b h _; simp [checkedBitPattern] at h
  | aarch64 k =>
    intro b h hb
    simp only [checkedBitPattern] at h
    simp only [bitsOf, if_pos h, Option.some.injEq] at hb
    subst hb
    simp only [Bool.and_eq_true, decide_eq_true_eq] at h
    exact ⟨rfl, by simp [anyBitPattern, h.1.1, h.1.2, aarch64_pod_mem_abp k h.2]⟩
  | x86 k =>
    intro b h hb
    simp only [checkedBitPattern] at h
    simp only [bitsOf, if_pos h, Option.some.injEq] at hb
    subst hb
    simp only [Bool.and_eq_true, decide_eq_true_eq] at h
    exact ⟨rfl, by simp [anyBitPattern, h.1, x84_mem_abp k h.2]⟩
  | x86_64 k => intro b h _; simp [checkedBitPattern] at h
  | cell te ih => intro b h _; simp [checkedBitPattern] at h
  | atomic te ih => intro b h _; simp [checkedBitPattern] at h
  | maybeUninit te ih => intro b h _; simp [checkedBitPattern] at h

/-- C7 witness: the 32-bit non-zero integer instance at a concrete
configuration and pointer size. -/
theorem checked_bits_same_size_and_any_pattern_witness :
    checkedBitPattern cfgDefault Ty.nonZeroI32 = true ∧
    bitsOf cfgDefault Ty.nonZeroI32 = some Ty.i32 ∧
    (sizeOf 8 Ty.i32 = sizeOf 8 Ty.nonZeroI32 ∧
      anyBitPattern cfgDefault Ty.i32 = true) :=
  ⟨rfl, rfl,
    checked_bits_same_size_and_any_pattern 8 cfgDefault Ty.nonZeroI32 Ty.i32 rfl rfl⟩

/-- C1: the claim covers the built-in non-zero integer type of every
width, signed and unsigned, but the signed 8-bit member carries no
`CheckedBitPattern` (and no `PodInOption`) classification anywhere in
the sources, while every other member does.  The remaining conjuncts
evaluate the classification at the concrete 32-bit inputs named by the
claim: the 32-bit `Bits` types are the plain integers of identical
width, pattern `0x00000000` is rejected, pattern `0x00000001` is
accepted as value 1, and pattern `0xFFFFFFFF` is accepted as value −1
signed and 4294967295 unsigned. -/
theorem nonzero_family_missing_signed_8bit :
    checkedBitPattern cfgDefault Ty.nonZeroI8 = false ∧
    podInOption cfgDefault Ty.nonZeroI8 = false ∧
    bitsOf cfgDefault Ty.nonZeroI8 = none ∧
    (declarations.filter (fun d => decide (d.ty = Ty.nonZeroI8))).length = 0 ∧
    bitsOf cfgDefault Ty.nonZeroI32 = some Ty.i32 ∧
    bitsOf cfgDefault Ty.nonZeroU32 = some Ty.u32 ∧
    NonZeroI32.is_valid_bit_pattern (decodeInt 32 true 0) = false ∧
    NonZeroU32.is_valid_bit_pattern (decodeInt 32 false 0) = false ∧
    decodeInt 32 true 1 = 1 ∧
    NonZeroI32.is_valid_bit_pattern (decodeInt 32 true 1) = true ∧
    decodeInt 32 true 4294967295 = -1 ∧
    NonZeroI32.is_valid_bit_pattern (decodeInt 32 true 4294967295) = true ∧
    decodeInt 32 false 4294967295 = 4294967295 ∧
    NonZeroU32.is_valid_bit_pattern (decodeInt 32 false 4294967295) = true := by
  decide

/-- C2: for every type `T` classified `PodInOption`, the wrapper
`Option<T>` carries `Pod`, `AnyBitPattern` and `NoUninit`, its
representation type equals `T`'s own `Bits`, and its validity
predicate is the constant true on every candidate value.  Concretely,
for the optional over the non-zero 16-bit unsigned integer, every
pattern below 65536 is accepted by the fallible cast, pattern `0x0000`
decodes to absent, pattern `0x0007` decodes to present value 7, and
every non-sentinel pattern decodes to a value the payload's own
predicate accepts. -/
theorem option_over_pod_in_option_is_pod (c : Cfg) (pw : Nat) (t : Ty)
    (v : Int) (p : Nat) (ht : podInOption c t = true) (h : p < 65536) :
    pod c (Ty.option t) = true ∧
    anyBitPattern c (Ty.option t) = true ∧
    noUninit c (Ty.option t) = true ∧
    bitsOf c (Ty.option t) = bitsOf c t ∧
    is_valid_bit_pattern_of (Ty.option t) v = true ∧
    bitsOf c (Ty.option Ty.nonZeroU16) = some Ty.u16 ∧
    checkedCast pw c (Ty.option Ty.nonZeroU16) p = some (p : Int) ∧
    optionNonZeroDecode 16 false 0 = none ∧
    optionNonZeroDecode 16 false 7 = some 7 ∧
    (p ≠ 0 → NonZeroU16.is_valid_bit_pattern (decodeInt 16 false p) = true) := by
  refine ⟨ht, ht, podInOption_imp_noUninit c t ht, ?_, rfl, rfl, ?_, rfl,
    by decide, ?_⟩
  · simp [bitsOf, ht]
  · simp [checkedCast, bitsOf, podInOption, intShape, is_valid_bit_pattern_of,
      decodeInt]
  · intro hp
    simp [NonZeroU16.is_valid_bit_pattern, decodeInt, bne_iff_ne]
    exact_mod_cast hp

/-- C2 witness: payload `NonZeroU16`, candidate value 7, pattern 7,
the default configuration and a 64-bit pointer width. -/
theorem option_over_pod_in_option_is_pod_witness :
    podInOption cfgDefault Ty.nonZeroU16 = true ∧
    (7 : Nat) < 65536 ∧
    (pod cfgDefault (Ty.option Ty.nonZeroU16) = true ∧
     anyBitPattern cfgDefault (Ty.option Ty.nonZeroU16) = true ∧
     noUninit cfgDefault (Ty.option Ty.nonZeroU16) = true ∧
     bitsOf cfgDefault (Ty.option Ty.nonZeroU16) = bitsOf cfgDefault Ty.nonZeroU16 ∧
     is_valid_bit_pattern_of (Ty.option Ty.nonZeroU16) 7 = true ∧
     bitsOf cfgDefault (Ty.option Ty.nonZeroU16) = some Ty.u16 ∧
     checkedCast 64 cfgDefault (Ty.option Ty.nonZeroU16) 7 = some ((7 : Nat) : Int) ∧
     optionNonZeroDecode 16 false 0 = none ∧
     optionNonZeroDecode 16 false 7 = some 7 ∧
     ((7 : Nat) ≠ 0 →
       NonZeroU16.is_valid_bit_pattern (decodeInt 16 false 7) = true)) :=
  ⟨rfl, by decide,
    option_over_pod_in_option_is_pod cfgDefault 64 Ty.nonZeroU16 7 7 rfl
      (by decide)⟩

/-- C3: `u8` carries a `Pod` declaration and carries `Zeroable`,
`AnyBitPattern` and `NoUninit`, but no `CheckedBitPattern`
classification for `u8` exists anywhere in the sources, although the
supertrait bound of `Pod` (`pod.rs` line 38) requires it: the claimed
conjunction fails at `u8`. -/
theorem pod_u8_without_checked_bit_pattern :
    pod cfgDefault Ty.u8 = true ∧
    zeroable cfgDefault Ty.u8 = true ∧
    anyBitPattern cfgDefault Ty.u8 = true ∧
    noUninit cfgDefault Ty.u8 = true ∧
    checkedBitPattern cfgDefault Ty.u8 = false ∧
    (declarations.filter (fun d =>
      decide (d.cls = Classification.checkedBitPattern)
        && decide (d.ty = Ty.u8))).length = 0 := by
  decide

/-- C4 counterexample: with the `unsound_ptr_pod_impl` feature
enabled, raw pointers do reach the `Pod` classification and
`NonNull<T>` is classified `PodInOption` (`pod.rs` lines 188-224), so
the claim that they are excluded even behind the opt-in flag is false
at this concrete configuration. -/
theorem unsound_flag_reaches_pod_counterexample :
    pod cfgUnsoundPtr (Ty.ptrMut Ty.u8) = true ∧
    pod cfgUnsoundPtr (Ty.ptrConst Ty.u8) = true ∧
    podInOption cfgUnsoundPtr (Ty.nonNull Ty.u8) = true := by
  decide

/-- C4 amended: in every configuration `c` with the
`unsound_ptr_pod_impl` escape flag disabled (the default), raw
pointers carry none of `Pod`, `AnyBitPattern`, `NoUninit`,
`CheckedBitPattern` and `NonNull<T>` is not classified `PodInOption`;
in every configuration `cOn` with the flag enabled, all of those
declarations are added (`pod.rs` lines 188-224), shifting soundness
responsibility to the enabler; and cells and atomics carry no `Pod`
and no `AnyBitPattern` classification in either flag state, hence
unconditionally. -/
theorem pointers_excluded_without_unsound_flag (c cOn : Cfg) (t : Ty)
    (h : c.unsound_ptr_pod_impl = false)
    (hOn : cOn.unsound_ptr_pod_impl = true) :
    (pod c (Ty.ptrMut t) = false ∧
     pod c (Ty.ptrConst t) = false ∧
     anyBitPattern c (Ty.ptrMut t) = false ∧
     anyBitPattern c (Ty.ptrConst t) = false ∧
     noUninit c (Ty.ptrMut t) = false ∧
     noUninit c (Ty.ptrConst t) = false ∧
     checkedBitPattern c (Ty.ptrMut t) = false ∧
     checkedBitPattern c (Ty.ptrConst t) = false ∧
     podInOption c (Ty.nonNull t) = false) ∧
    (pod cOn (Ty.ptrMut t) = true ∧
     pod cOn (Ty.ptrConst t) = true ∧
     anyBitPattern cOn (Ty.ptrMut t) = true ∧
     anyBitPattern cOn (Ty.ptrConst t) = true ∧
     noUninit cOn (Ty.ptrMut t) = true ∧
     noUninit cOn (Ty.ptrConst t) = true ∧
     checkedBitPattern cOn (Ty.ptrMut t) = true ∧
     checkedBitPattern cOn (Ty.ptrConst t) = true ∧
     podInOption cOn (Ty.nonNull t) = true) ∧
    (pod c (Ty.cell t) = false ∧ pod cOn (Ty.cell t) = false ∧
     pod c (Ty.atomic t) = false ∧ pod cOn (Ty.atomic t) = false ∧
     anyBitPattern c (Ty.cell t) = false ∧
     anyBitPattern cOn (Ty.cell t) = false ∧
     anyBitPattern c (Ty.atomic t) = false ∧
     anyBitPattern cOn (Ty.atomic t) = false) := by
  refine ⟨?_, ?_, ?_⟩ <;>
    simp [pod, anyBitPattern, noUninit, checkedBitPattern, podInOption, h, hOn]

/-- C4 witness: the amended statement at the default flag-off
configuration, the flag-on configuration, and payload `u8`. -/
theorem pointers_excluded_without_unsound_flag_witness :
    cfgDefault.unsound_ptr_pod_impl = false ∧
    cfgUnsoundPtr.unsound_ptr_pod_impl = true ∧
    ((pod cfgDefault (Ty.ptrMut Ty.u8) = false ∧
      pod cfgDefault (Ty.ptrConst Ty.u8) = false ∧
      anyBitPattern cfgDefault (Ty.ptrMut Ty.u8) = false ∧
      anyBitPattern cfgDefault (Ty.ptrConst Ty.u8) = false ∧
      noUninit cfgDefault (Ty.ptrMut Ty.u8) = false ∧
      noUninit cfgDefault (Ty.ptrConst Ty.u8) = false ∧
      checkedBitPattern cfgDefault (Ty.ptrMut Ty.u8) = false ∧
      checkedBitPattern cfgDefault (Ty.ptrConst Ty.u8) = false ∧
      podInOption cfgDefault (Ty.nonNull Ty.u8) = false) ∧
     (pod cfgUnsoundPtr (Ty.ptrMut Ty.u8) = true ∧
      pod cfgUnsoundPtr (Ty.ptrConst Ty.u8) = true ∧
      anyBitPattern cfgUnsoundPtr (Ty.ptrMut Ty.u8) = true ∧
      anyBitPattern cfgUnsoundPtr (Ty.ptrConst Ty.u8) = true ∧
      noUninit cfgUnsoundPtr (Ty.ptrMut Ty.u8) = true ∧
      noUninit cfgUnsoundPtr (Ty.ptrConst Ty.u8) = true ∧
      checkedBitPattern cfgUnsoundPtr (Ty.ptrMut Ty.u8) = true ∧
      checkedBitPattern cfgUnsoundPtr (Ty.ptrConst Ty.u8) = true ∧
      podInOption cfgUnsoundPtr (Ty.nonNull Ty.u8) = true) ∧
     (pod cfgDefault (Ty.cell Ty.u8) = false ∧
      pod cfgUnsoundPtr (Ty.cell Ty.u8) = false ∧
      pod cfgDefault (Ty.atomic Ty.u8) = false ∧
      pod cfgUnsoundPtr (Ty.atomic Ty.u8) = false ∧
      anyBitPattern cfgDefault (Ty.cell Ty.u8) = false ∧
      anyBitPattern cfgUnsoundPtr (Ty.cell Ty.u8) = false ∧
      anyBitPattern cfgDefault (Ty.atomic Ty.u8) = false ∧
      anyBitPattern cfgUnsoundPtr (Ty.atomic Ty.u8) = false)) :=
  ⟨rfl, rfl,
    pointers_excluded_without_unsound_flag cfgDefault cfgUnsoundPtr Ty.u8
      rfl rfl⟩

/-- C5: with the `min_const_generics` feature (which gates every array
declaration of the sources), each of the four component
classifications is preserved by fixed arrays of every length, and the
array validity predicate is the conjunction of the element predicate
over every element (empty arrays are accepted; a cons is accepted
exactly when its head is valid and its tail is). -/
theorem array_aggregation_law (c : Cfg) (t : Ty) (n : Nat)
    (p : Int → Bool) (v : Int) (l : List Int)
    (h : c.min_const_generics = true) :
    (zeroable c t = true → zeroable c (Ty.array t n) = true) ∧
    (anyBitPattern c t = true → anyBitPattern c (Ty.array t n) = true) ∧
    (noUninit c t = true → noUninit c (Ty.array t n) = true) ∧
    (checkedBitPattern c t = true → checkedBitPattern c (Ty.array t n) = true) ∧
    array_is_valid_bit_pattern p [] = true ∧
    array_is_valid_bit_pattern p (v :: l)
      = (p v && array_is_valid_bit_pattern p l) := by
  refine ⟨?_, ?_, ?_, ?_, rfl, ?_⟩
  · intro hz; simp [zeroable, h, hz]
  · intro ha; simp [anyBitPattern, h, ha]
  · intro hu; simp [noUninit, h, hu]
  · intro hc; simp [checkedBitPattern, h, hc]
  · simp [array_is_valid_bit_pattern]

/-- C5 witness: the law at element type `u32`, length 3, and the
32-bit non-zero predicate on the element list `1 :: [-2]`. -/
theorem array_aggregation_law_witness :
    cfgDefault.min_const_generics = true ∧
    ((zeroable cfgDefault Ty.u32 = true →
        zeroable cfgDefault (Ty.array Ty.u32 3) = true) ∧
     (anyBitPattern cfgDefault Ty.u32 = true →
        anyBitPattern cfgDefault (Ty.array Ty.u32 3) = true) ∧
     (noUninit cfgDefault Ty.u32 = true →
        noUninit cfgDefault (Ty.array Ty.u32 3) = true) ∧
     (checkedBitPattern cfgDefault Ty.u32 = true →
        checkedBitPattern cfgDefault (Ty.array Ty.u32 3) = true) ∧
     array_is_valid_bit_pattern NonZeroI32.is_valid_bit_pattern [] = true ∧
     array_is_valid_bit_pattern NonZeroI32.is_valid_bit_pattern (1 :: [-2])
       = (NonZeroI32.is_valid_bit_pattern 1
           && array_is_valid_bit_pattern NonZeroI32.is_valid_bit_pattern [-2])) :=
  ⟨rfl, array_aggregation_law cfgDefault Ty.u32 3
    NonZeroI32.is_valid_bit_pattern 1 [-2] rfl⟩

/-- C6: the sources do not assert each classification at most once per
concrete type: `anybitpattern.rs` declares `AnyBitPattern` for
`wasm32::v128` twice (lines 112 and 147, under the same cfg gate), and
the `x84!` invocation of `pod.rs` (lines 404-407) lists each x86
vector type twice, so `__m128i` receives two `Pod` (and two of each
other) declarations. -/
theorem duplicate_concrete_declarations :
    (declarations.filter (fun d =>
      decide (d.cls = Classification.anyBitPattern)
        && decide (d.ty = Ty.v128))).length = 2 ∧
    (declarations.filter (fun d =>
      decide (d.cls = Classification.pod)
        && decide (d.ty = Ty.x86 "__m128i"))).length = 2 ∧
    (declarations.filter (fun d =>
      decide (d.cls = Classification.checkedBitPattern)
        && decide (d.ty = Ty.x86 "__m256d"))).length = 2 := by
  decide

/-- C8: for every `CheckedBitPattern` type whose `Bits` is a plain
integer, the fallible cast on a pattern of the correct width yields the
decoded value exactly when the validity predicate accepts the `Bits`
reading, and yields the explicit rejection `none` exactly when the
predicate rejects it: the predicate result is the sole source of
truth, with no silent default. -/
theorem checked_cast_iff_predicate (pw : Nat) (c : Cfg) (t b : Ty)
    (w : Nat) (s : Bool) (p : Nat)
    (hb : bitsOf c t = some b) (hs : intShape pw b = some (w, s))
    (hp : p < 2 ^ w) :
    (checkedCast pw c t p = some (decodeInt w s p) ↔
      is_valid_bit_pattern_of t (decodeInt w s p) = true) ∧
    (checkedCast pw c t p = none ↔
      is_valid_bit_pattern_of t (decodeInt w s p) = false) := by
  rcases hv : is_valid_bit_pattern_of t (decodeInt w s p) <;>
    simp [checkedCast, hb, hs, hv]

/-- C8 witness: the 16-bit non-zero unsigned instance at pattern 7. -/
theorem checked_cast_iff_predicate_witness :
    bitsOf cfgDefault Ty.nonZeroU16 = some Ty.u16 ∧
    intShape 64 Ty.u16 = some (16, false) ∧
    (7 : Nat) < 2 ^ 16 ∧
    ((checkedCast 64 cfgDefault Ty.nonZeroU16 7 = some (decodeInt 16 false 7) ↔
       is_valid_bit_pattern_of Ty.nonZeroU16 (decodeInt 16 false 7) = true) ∧
     (checkedCast 64 cfgDefault Ty.nonZeroU16 7 = none ↔
       is_valid_bit_pattern_of Ty.nonZeroU16 (decodeInt 16 false 7) = false)) :=
  ⟨rfl, rfl, by decide,
    checked_cast_iff_predicate 64 cfgDefault Ty.nonZeroU16 Ty.u16 16 false 7
      rfl rfl (by decide)⟩

/-- C9: every validity predicate in the system is consistent with the
zero classification: whenever a type carries both `CheckedBitPattern`
and `Zeroable`, its predicate accepts the all-zero pattern.  (Each
predicate is by construction a total function on the whole `Bits`
domain, mirroring the loop-free, panic-free Rust bodies.) -/
theorem valid_accepts_zero_when_zeroable (c : Cfg) (t : Ty)
    (hc : checkedBitPattern c t = true) (hz : zeroable c t = true) :
    is_valid_bit_pattern_of t 0 = true := by
  cases t <;> first
    | rfl
    | simp_all [zeroable, checkedBitPattern]

/-- C9 witness: the signed 8-bit primitive at the default
configuration. -/
theorem valid_accepts_zero_when_zeroable_witness :
    checkedBitPattern cfgDefault Ty.i8 = true ∧
    zeroable cfgDefault Ty.i8 = true ∧
    is_valid_bit_pattern_of Ty.i8 0 = true :=
  ⟨rfl, rfl, valid_accepts_zero_when_zeroable cfgDefault Ty.i8 rfl rfl⟩

/-- C10: the `NoUninit` classification of `Option<T>` requires only
`T: NoUninit` (`pod_in_option.rs` line 9): it lifts to the optional of
every `NoUninit` payload, not only the `PodInOption` ones. -/
theorem no_uninit_lifts_to_option (c : Cfg) (t : Ty)
    (h : noUninit c t = true) : noUninit c (Ty.option t) = true := by
  simpa [noUninit] using h

/-- C10 witness: `u8` is `NoUninit` but not `PodInOption`, and its
optional is `NoUninit`. -/
theorem no_uninit_lifts_to_option_witness :
    noUninit cfgDefault Ty.u8 = true ∧
    podInOption cfgDefault Ty.u8 = false ∧
    noUninit cfgDefault (Ty.option Ty.u8) = true :=
  ⟨rfl, rfl, no_uninit_lifts_to_option cfgDefault Ty.u8 rfl⟩

end Bytemuck
